import Mathlib

/-!
Verification of `nodejs-data-matrix-decoder` against its specification.

The development shallowly embeds the two source files:

* `gs1-parser-test.js` — the GS1 Data Matrix payload parser
  (`parseGS1DataMatrix`, `convertGTINtoNDC`, `formatExpirationDate`);
* `decode-dm.js` — the decode-fallback pipeline, modelled as a pure
  function over oracles standing for the external image-processing
  (`sharp`) and barcode-decoding (`zxing-wasm`) capabilities.

JavaScript string primitives (`String.prototype.substring`, `parseInt`)
and the `Date` constructor / `toLocaleDateString('en-US', …)` pair are
modelled explicitly so that the parser definitions can follow the source
line by line.
-/

namespace DMDecoder

/-! ## JavaScript string and number primitives -/

/-- JS `s.substring(a, b)`: both indices are clamped to `[0, s.length]`
and swapped when `a > b`.  Taking `max a b` characters and then dropping
`min a b` realises exactly that semantics for natural-number indices. -/
def jsSubstring (s : String) (a b : Nat) : String :=
  String.mk ((s.data.take (max a b)).drop (min a b))

/-- JS `s.substring(a)`: the suffix of `s` from index `a` (clamped). -/
def jsSubstringFrom (s : String) (a : Nat) : String :=
  String.mk (s.data.drop a)

/-- Value of a character as a digit in the given base (base 10 or 16),
`none` when the character is not a digit of that base. -/
def charDigitVal (base : Nat) (c : Char) : Option Nat :=
  if '0' ≤ c ∧ c ≤ '9' then some (c.toNat - '0'.toNat)
  else if base = 16 ∧ 'a' ≤ c ∧ c ≤ 'f' then some (c.toNat - 'a'.toNat + 10)
  else if base = 16 ∧ 'A' ≤ c ∧ c ≤ 'F' then some (c.toNat - 'A'.toNat + 10)
  else none

/-- JS whitespace accepted by `parseInt`. -/
def jsIsSpace (c : Char) : Bool :=
  c = ' ' ∨ c = '\t' ∨ c = '\n' ∨ c = '\r' ∨ c = '\x0b' ∨ c = '\x0c'

/-- JS `parseInt(s)` (radix argument omitted): skip whitespace, read an
optional sign, detect a `0x`/`0X` hexadecimal marker, then read the
maximal run of digits of the detected base.  `none` models `NaN`. -/
def jsParseInt (s : String) : Option Int :=
  let cs := s.data.dropWhile jsIsSpace
  let sgn : Int := match cs with
    | '-' :: _ => -1
    | _ => 1
  let cs1 := match cs with
    | '-' :: r => r
    | '+' :: r => r
    | _ => cs
  let base : Nat := match cs1 with
    | '0' :: c :: _ => if c = 'x' ∨ c = 'X' then 16 else 10
    | _ => 10
  let cs2 := match cs1 with
    | '0' :: c :: r => if c = 'x' ∨ c = 'X' then r else cs1
    | _ => cs1
  let ds := cs2.takeWhile (fun c => (charDigitVal base c).isSome)
  if ds.isEmpty then none
  else some (sgn * (ds.foldl (fun n c => n * base + (charDigitVal base c).getD 0) 0 : Nat))

/-! ## JS `Date` model

`new Date(year, monthIndex, day)` normalises out-of-range month and day
values by plain calendar arithmetic, and
`toLocaleDateString('en-US', {year:'numeric', month:'long', day:'numeric'})`
prints the normalised date as `MonthName D, YYYY`.  We model the proleptic
Gregorian calendar with the standard `days_from_civil` / `civil_from_days`
algorithms.  Lean's `Int` division `/` is Euclidean division, which for the
positive divisors used below coincides with floor division. -/

/-- Serial day number (days since 1970-01-01) of the civil date
`(y, m, d)` with `m ∈ [1,12]`. -/
def daysFromCivil (y m d : Int) : Int :=
  let y1 := if m ≤ 2 then y - 1 else y
  let era := y1 / 400
  let yoe := y1 - era * 400
  let doy := (153 * (if 2 < m then m - 3 else m + 9) + 2) / 5 + d - 1
  let doe := yoe * 365 + yoe / 4 - yoe / 100 + doy
  era * 146097 + doe - 719468

/-- A normalised civil (proleptic Gregorian) date. -/
structure CivilDate where
  year : Int
  month : Int
  day : Int
deriving DecidableEq, Repr

/-- Civil date of a serial day number (inverse of `daysFromCivil`). -/
def civilFromDays (z0 : Int) : CivilDate :=
  let z := z0 + 719468
  let era := z / 146097
  let doe := z - era * 146097
  let yoe := (doe - doe / 1460 + doe / 36524 - doe / 146096) / 365
  let y := yoe + era * 400
  let doy := doe - (365 * yoe + yoe / 4 - yoe / 100)
  let mp := (5 * doy + 2) / 153
  let d := doy - (153 * mp + 2) / 5 + 1
  let m := if mp < 10 then mp + 3 else mp - 9
  ⟨y + (if m ≤ 2 then 1 else 0), m, d⟩

/-- English month names used by `toLocaleDateString('en-US', …)`. -/
def monthLongName (m : Int) : String :=
  if m = 1 then "January" else if m = 2 then "February"
  else if m = 3 then "March" else if m = 4 then "April"
  else if m = 5 then "May" else if m = 6 then "June"
  else if m = 7 then "July" else if m = 8 then "August"
  else if m = 9 then "September" else if m = 10 then "October"
  else if m = 11 then "November" else if m = 12 then "December"
  else ""

/-- `new Date(y, m0, d).toLocaleDateString('en-US', {year:'numeric',
month:'long', day:'numeric'})` for finite arguments: the constructor maps
a year in `[0,99]` to `1900 + year`, folds an out-of-range month index
into the year, and normalises the day by calendar arithmetic. -/
def jsDateToLocaleEnUS (y m0 d : Int) : String :=
  let yr := if 0 ≤ y ∧ y ≤ 99 then 1900 + y else y
  let ym := yr + m0 / 12
  let mn := m0 % 12
  let c := civilFromDays (daysFromCivil ym (mn + 1) 1 + (d - 1))
  monthLongName c.month ++ " " ++ toString c.day ++ ", " ++ toString c.year

/-! ## `gs1-parser-test.js` — GS1 parser, GTIN→NDC converter, date formatter -/

/-- `convertGTINtoNDC` (gs1-parser-test.js:50-65).  Throws — here, returns
`Except.error` — unless the input has exactly 14 characters (`!gtin` is
subsumed: the empty string also has length ≠ 14); otherwise drops the
first 3 characters and joins the remaining 11 as 5-4-2 hyphenated
groups. -/
def convertGTINtoNDC (gtin : String) : Except String String :=
  if gtin.length ≠ 14 then
    Except.error "Invalid GTIN format. Expected 14 digits."
  else
    let woPre := jsSubstringFrom gtin 3
    let labeler := jsSubstring woPre 0 5
    let product := jsSubstring woPre 5 9
    let packageCode := jsSubstring woPre 9 11
    Except.ok (labeler ++ "-" ++ product ++ "-" ++ packageCode)

/-- The century-resolution step of `formatExpirationDate`
(gs1-parser-test.js:80): `year <= 30 ? 2000 + year : 1900 + year`. -/
def resolveFullYear (year : Int) : Int :=
  if year ≤ 30 then 2000 + year else 1900 + year

/-- `formatExpirationDate` (gs1-parser-test.js:70-88).  Pass-through when
the input's length is not 6 (the `!yymmdd` check is subsumed: the empty
string has length 0).  Otherwise parses fixed-width year, month, day with
`parseInt`; a `NaN` in any component makes the constructed `Date` invalid
and `toLocaleDateString` yield `"Invalid Date"`. -/
def formatExpirationDate (yymmdd : String) : String :=
  if yymmdd.length ≠ 6 then yymmdd
  else
    match jsParseInt (jsSubstring yymmdd 0 2), jsParseInt (jsSubstring yymmdd 2 4),
        jsParseInt (jsSubstring yymmdd 4 6) with
    | some year, some month, some day =>
        jsDateToLocaleEnUS (resolveFullYear year) (month - 1) day
    | _, _, _ => "Invalid Date"

/-- The structured record built by `parseGS1DataMatrix`: every field other
than `raw` is optional, and `serialNumber` is present in the record's
shape but never assigned by the parser. -/
structure ParsedRecord where
  raw : String
  gtin : Option String := none
  ndc : Option String := none
  expirationDateRaw : Option String := none
  expirationDate : Option String := none
  lotNumber : Option String := none
  serialNumber : Option String := none
deriving DecidableEq, Repr

/-- gs1-parser-test.js:33-37 — the state of `parseGS1DataMatrix` after the
AI `17` check, with cursor `pos`: if the two characters at the cursor are
`"10"`, everything remaining after them becomes `lotNumber`. -/
def parseGS1After17 (data : String) (pos : Nat) (result : ParsedRecord) : ParsedRecord :=
  if jsSubstring data pos (pos + 2) = "10" then
    { result with lotNumber := some (jsSubstringFrom data (pos + 2)) }
  else result

/-- gs1-parser-test.js:25-31 — the state after the AI `01` check, with
cursor `pos`: if the two characters at the cursor are `"17"`, the next 6
characters (as available) become `expirationDateRaw`, formatted into
`expirationDate`, and the cursor advances by 8. -/
def parseGS1After01 (data : String) (pos : Nat) (result : ParsedRecord) : ParsedRecord :=
  if jsSubstring data pos (pos + 2) = "17" then
    let rawDate := jsSubstring data (pos + 2) (pos + 8)
    parseGS1After17 data (pos + 8)
      { result with expirationDateRaw := some rawDate
                    expirationDate := some (formatExpirationDate rawDate) }
  else parseGS1After17 data pos result

/-- The body of `parseGS1DataMatrix`'s `try` block (gs1-parser-test.js:15-37).
The only throwing operation is `convertGTINtoNDC`; at that point
`result.gtin` has already been assigned (line 20 precedes line 21), so the
error value carries the record as built so far, which the mutable `result`
object of the source retains across the throw. -/
def parseGS1Body (data : String) : Except (String × ParsedRecord) ParsedRecord :=
  let result : ParsedRecord := { raw := data }
  if jsSubstring data 0 2 = "01" then
    let gtin := jsSubstring data 2 16
    let result := { result with gtin := some gtin }
    match convertGTINtoNDC gtin with
    | Except.error e => Except.error (e, result)
    | Except.ok ndc => Except.ok (parseGS1After01 data 16 { result with ndc := some ndc })
  else
    Except.ok (parseGS1After01 data 0 result)

/-- `parseGS1DataMatrix` (gs1-parser-test.js:8-44): the `try`/`catch`
around the body logs the error and returns whatever record was built. -/
def parseGS1DataMatrix (data : String) : ParsedRecord :=
  match parseGS1Body data with
  | Except.ok r => r
  | Except.error (_, r) => r

/-! ## `decode-dm.js` — the decode-fallback pipeline

The script is a linear cascade inside a single `try`/`catch`: four
strategies are attempted in a fixed order, each early-exiting with the
decoded text on success; any thrown error reaches the one top-level
`catch`, which prints a processing error and exits 2.  The external
capabilities (`sharp` preprocessing chains, `zxing-wasm`'s `readBarcodes`,
`fs.promises.readFile`) are opaque: we model them as oracles collected in
an `Env`, parametric in the buffer type `β`, and the pipeline as a pure
function of the environment.  Alongside its outcome the model returns the
trace of attempts whose oracles were invoked, so that short-circuiting is
itself a provable statement. -/

/-- One result object returned by `readBarcodes`. -/
structure DecodeResult where
  text : String
  isValid : Bool
deriving DecidableEq, Repr

/-- The fixed preprocessing recipes of decode-dm.js.  The numeric filter
parameters are opaque configuration passed to the external capability;
each constructor stands for one exact `sharp` chain of the source:
`standard` = `.median(3).linear(1.6,-30).sharpen().png()` (lines 16-21),
`enhanced` = `.median(5).linear(2.0,-50).sharpen({sigma:1.5}).threshold(128).png()`
(lines 35-41), `standardRotated a` = the standard chain followed by
`.rotate(a)` (lines 56-62). -/
inductive Recipe where
  | standard
  | enhanced
  | standardRotated (angle : Nat)
deriving DecidableEq, Repr

/-- One entry of the pipeline's attempt sequence. -/
inductive Attempt where
  | standard0
  | enhanced0
  | rotated (angle : Nat)
  | original
deriving DecidableEq, Repr

/-- Oracles for the external capabilities, over an opaque buffer type:
`sharpChain r` is `sharp(file).<chain of r>.toBuffer()`;
`readBarcodesOpts` is `readBarcodes(buf, {formats:['DataMatrix'],
tryHarder:true, maxNumberOfSymbols:10})`; `readBarcodesNoOpts` is the
option-less `readBarcodes(buf)` of strategy 4; `readFile` is
`fs.promises.readFile(file)`.  `Except.error` models a rejected promise /
thrown exception carrying its message. -/
structure Env (β : Type) where
  sharpChain : Recipe → Except String β
  readBarcodesOpts : β → Except String (List DecodeResult)
  readBarcodesNoOpts : β → Except String (List DecodeResult)
  readFile : Except String β

/-- Acceptance test of strategies 1 and 2 (decode-dm.js:29, 49):
`results && results.length > 0 && results[0].isValid` — only the FIRST
result's validity is consulted. -/
def firstResultValid (rs : List DecodeResult) : Option String :=
  match rs with
  | [] => none
  | r :: _ => if r.isValid then some r.text else none

/-- Acceptance test of strategies 3 and 4 (decode-dm.js:70-75, 83-88):
when the result list is non-empty it is filtered for validity and the
first valid result wins. -/
def firstValidFiltered (rs : List DecodeResult) : Option String :=
  if rs.isEmpty then none
  else
    match rs.filter (fun r => r.isValid) with
    | [] => none
    | r :: _ => some r.text

/-- One preprocessing+decode attempt: the oracle calls it makes and the
acceptance test it applies, exactly per attempt kind.  `Except.ok none`
means the attempt completed without an accepted decode. -/
def runStrategy {β : Type} (env : Env β) : Attempt → Except String (Option String)
  | Attempt.standard0 => do
      let buf ← env.sharpChain Recipe.standard
      let rs ← env.readBarcodesOpts buf
      pure (firstResultValid rs)
  | Attempt.enhanced0 => do
      let buf ← env.sharpChain Recipe.enhanced
      let rs ← env.readBarcodesOpts buf
      pure (firstResultValid rs)
  | Attempt.rotated angle => do
      let buf ← env.sharpChain (Recipe.standardRotated angle)
      let rs ← env.readBarcodesOpts buf
      pure (firstValidFiltered rs)
  | Attempt.original => do
      let buf ← env.readFile
      let rs ← env.readBarcodesNoOpts buf
      pure (firstValidFiltered rs)

/-- The fixed attempt sequence of the script: standard at rotation 0,
enhanced at rotation 0, standard at rotations 90, 180, 270 (the `for`
loop of line 55), then the unprocessed original file. -/
def attemptOrder : List Attempt :=
  [Attempt.standard0, Attempt.enhanced0,
   Attempt.rotated 90, Attempt.rotated 180, Attempt.rotated 270,
   Attempt.original]

/-- Final outcome of the script's `try` block: `success t` prints `t` and
exits 0; `decodeFailed` prints `Decode failed` and exits 2 (line 91-93);
`processingError e` is the top-level `catch` (line 95-97), exit 2. -/
inductive Outcome where
  | success (text : String)
  | decodeFailed
  | processingError (msg : String)
deriving DecidableEq, Repr

/-- Process exit code of each outcome (decode-dm.js:31, 93, 97). -/
def exitCode : Outcome → Nat
  | Outcome.success _ => 0
  | Outcome.decodeFailed => 2
  | Outcome.processingError _ => 2

/-- Runs the attempts in order, with the early exits and the single
top-level `catch` of the source; also returns the trace of attempts whose
oracles were invoked. -/
def runPipelineAux {β : Type} (env : Env β) : List Attempt → Outcome × List Attempt
  | [] => (Outcome.decodeFailed, [])
  | a :: rest =>
    match runStrategy env a with
    | Except.error e => (Outcome.processingError e, [a])
    | Except.ok (some t) => (Outcome.success t, [a])
    | Except.ok none =>
      ((runPipelineAux env rest).1, a :: (runPipelineAux env rest).2)

/-- The whole decode pipeline (decode-dm.js:14-98). -/
def runPipeline {β : Type} (env : Env β) : Outcome × List Attempt :=
  runPipelineAux env attemptOrder

/-! ## Concrete oracle environments used to instantiate the theorems

The buffer type `Recipe` tags each preprocessed buffer with the recipe
that produced it, so the decode oracle can answer differently per
strategy. -/

/-- Environment in which strategy 1 finds nothing and strategy 2
(enhanced recipe) decodes the valid text `"good"`. -/
def envEnhancedWins : Env Recipe where
  sharpChain := fun r => Except.ok r
  readBarcodesOpts := fun r =>
    match r with
    | Recipe.enhanced => Except.ok [⟨"good", true⟩]
    | _ => Except.ok []
  readBarcodesNoOpts := fun _ => Except.ok []
  readFile := Except.ok Recipe.standard

/-- Environment in which the decode engine throws during strategy 1
while strategy 2 would decode the valid text `"good"`. -/
def envCrashFirst : Env Recipe where
  sharpChain := fun r => Except.ok r
  readBarcodesOpts := fun r =>
    match r with
    | Recipe.standard => Except.error "engine crash"
    | Recipe.enhanced => Except.ok [⟨"good", true⟩]
    | _ => Except.ok []
  readBarcodesNoOpts := fun _ => Except.ok []
  readFile := Except.ok Recipe.standard

/-- Environment in which every attempt completes and finds no symbol. -/
def envAllNone : Env Unit where
  sharpChain := fun _ => Except.ok ()
  readBarcodesOpts := fun _ => Except.ok []
  readBarcodesNoOpts := fun _ => Except.ok []
  readFile := Except.ok ()

/-! ## Helper lemmas -/

theorem jsSubstring_data (s : String) (a b : Nat) (h : a ≤ b) :
    (jsSubstring s a b).data = (s.data.drop a).take (b - a) := by
  show (s.data.take (max a b)).drop (min a b) = _
  rw [Nat.max_eq_right h, Nat.min_eq_left h, List.drop_take]

theorem jsSubstring_length (s : String) (a b : Nat) (h : a ≤ b) :
    (jsSubstring s a b).length = min b s.length - a := by
  have hs : s.length = s.data.length := rfl
  show ((s.data.take (max a b)).drop (min a b)).length = _
  rw [Nat.max_eq_right h, Nat.min_eq_left h, List.length_drop, List.length_take, hs]

theorem jsSubstringFrom_sub (s : String) (a b c : Nat) (h : b ≤ c) :
    jsSubstring (jsSubstringFrom s a) b c = jsSubstring s (a + b) (a + c) := by
  apply String.ext
  rw [jsSubstring_data _ _ _ h, jsSubstring_data _ _ _ (Nat.add_le_add_left h a)]
  show ((s.data.drop a).drop b).take (c - b) = (s.data.drop (a + b)).take (a + c - (a + b))
  rw [List.drop_drop, Nat.add_sub_add_left]

theorem parseGS1After17_gtin (data : String) (pos : Nat) (r : ParsedRecord) :
    (parseGS1After17 data pos r).gtin = r.gtin := by
  unfold parseGS1After17
  split <;> rfl

theorem parseGS1After17_ndc (data : String) (pos : Nat) (r : ParsedRecord) :
    (parseGS1After17 data pos r).ndc = r.ndc := by
  unfold parseGS1After17
  split <;> rfl

theorem parseGS1After17_expRaw (data : String) (pos : Nat) (r : ParsedRecord) :
    (parseGS1After17 data pos r).expirationDateRaw = r.expirationDateRaw := by
  unfold parseGS1After17
  split <;> rfl

theorem parseGS1After17_exp (data : String) (pos : Nat) (r : ParsedRecord) :
    (parseGS1After17 data pos r).expirationDate = r.expirationDate := by
  unfold parseGS1After17
  split <;> rfl

theorem parseGS1After17_serial (data : String) (pos : Nat) (r : ParsedRecord) :
    (parseGS1After17 data pos r).serialNumber = r.serialNumber := by
  unfold parseGS1After17
  split <;> rfl

theorem parseGS1After01_gtin (data : String) (pos : Nat) (r : ParsedRecord) :
    (parseGS1After01 data pos r).gtin = r.gtin := by
  unfold parseGS1After01
  split <;> rw [parseGS1After17_gtin]

theorem parseGS1After01_ndc (data : String) (pos : Nat) (r : ParsedRecord) :
    (parseGS1After01 data pos r).ndc = r.ndc := by
  unfold parseGS1After01
  split <;> rw [parseGS1After17_ndc]

theorem parseGS1After01_serial (data : String) (pos : Nat) (r : ParsedRecord) :
    (parseGS1After01 data pos r).serialNumber = r.serialNumber := by
  unfold parseGS1After01
  split <;> rw [parseGS1After17_serial]

theorem parseGS1_no01 (data : String) (h01 : jsSubstring data 0 2 ≠ "01") :
    parseGS1DataMatrix data = parseGS1After01 data 0 { raw := data } := by
  unfold parseGS1DataMatrix parseGS1Body
  rw [if_neg h01]

theorem parseGS1_conv_error (data e : String)
    (h01 : jsSubstring data 0 2 = "01")
    (hc : convertGTINtoNDC (jsSubstring data 2 16) = Except.error e) :
    parseGS1DataMatrix data = { raw := data, gtin := some (jsSubstring data 2 16) } := by
  unfold parseGS1DataMatrix parseGS1Body
  rw [if_pos h01]
  simp only [hc]

theorem parseGS1_conv_ok (data v : String)
    (h01 : jsSubstring data 0 2 = "01")
    (hc : convertGTINtoNDC (jsSubstring data 2 16) = Except.ok v) :
    parseGS1DataMatrix data =
      parseGS1After01 data 16
        { raw := data, gtin := some (jsSubstring data 2 16), ndc := some v } := by
  unfold parseGS1DataMatrix parseGS1Body
  rw [if_pos h01]
  simp only [hc]

theorem convertGTINtoNDC_error_iff (gtin e : String)
    (hc : convertGTINtoNDC gtin = Except.error e) : gtin.length ≠ 14 := by
  intro h14
  unfold convertGTINtoNDC at hc
  rw [if_neg (by simp [h14])] at hc
  exact Except.noConfusion hc

theorem convertGTINtoNDC_ok_iff (gtin v : String)
    (hc : convertGTINtoNDC gtin = Except.ok v) : gtin.length = 14 := by
  by_contra h14
  unfold convertGTINtoNDC at hc
  rw [if_pos h14] at hc
  exact Except.noConfusion hc

theorem runPipelineAux_append_none {β : Type} (env : Env β) (pre rest : List Attempt)
    (hpre : ∀ b ∈ pre, runStrategy env b = Except.ok none) :
    runPipelineAux env (pre ++ rest) =
      ((runPipelineAux env rest).1, pre ++ (runPipelineAux env rest).2) := by
  induction pre with
  | nil => simp
  | cons a l ih =>
      have ha : runStrategy env a = Except.ok none := hpre a (by simp)
      have ih2 := ih (fun b hb => hpre b (by simp [hb]))
      simp [runPipelineAux, ha, ih2]

theorem runPipelineAux_all_none {β : Type} (env : Env β) (l : List Attempt)
    (h : ∀ b ∈ l, runStrategy env b = Except.ok none) :
    runPipelineAux env l = (Outcome.decodeFailed, l) := by
  induction l with
  | nil => rfl
  | cons a l ih =>
      have ha : runStrategy env a = Except.ok none := h a (by simp)
      have ih2 := ih (fun b hb => h b (by simp [hb]))
      simp [runPipelineAux, ha, ih2]

/-! ## Claim theorems -/

/-- C1: The decode pipeline tries its strategies in the fixed order
(standard recipe at rotation 0; enhanced recipe at rotation 0; standard
recipe at rotations 90, 180, 270; unprocessed original bytes), and for
any environment in which some attempt is the first to yield a valid
decode — every earlier attempt completing with no accepted result — the
pipeline outputs exactly that decode's text, and the trace of evaluated
attempts stops at that attempt: no later strategy is ever evaluated. -/
theorem c1_order_and_short_circuit :
    attemptOrder = [Attempt.standard0, Attempt.enhanced0,
      Attempt.rotated 90, Attempt.rotated 180, Attempt.rotated 270, Attempt.original]
    ∧ ∀ (β : Type) (env : Env β) (pre post : List Attempt) (a : Attempt) (t : String),
        attemptOrder = pre ++ a :: post →
        (∀ b ∈ pre, runStrategy env b = Except.ok none) →
        runStrategy env a = Except.ok (some t) →
        runPipeline env = (Outcome.success t, pre ++ [a]) := by
  refine ⟨rfl, ?_⟩
  intro β env pre post a t hord hpre ha
  unfold runPipeline
  rw [hord, runPipelineAux_append_none env pre _ hpre]
  simp [runPipelineAux, ha]

/-- Witness for C1: in `envEnhancedWins`, strategy 1 completes with no
result and strategy 2 decodes `"good"`; the pipeline prints `"good"` and
evaluates nothing beyond strategy 2. -/
theorem c1_witness :
    runPipeline envEnhancedWins =
      (Outcome.success "good", [Attempt.standard0, Attempt.enhanced0]) :=
  c1_order_and_short_circuit.2 Recipe envEnhancedWins
    [Attempt.standard0]
    [Attempt.rotated 90, Attempt.rotated 180, Attempt.rotated 270, Attempt.original]
    Attempt.enhanced0 "good" rfl
    (by intro b hb; rw [List.mem_singleton] at hb; subst hb; rfl)
    rfl

/-- C4 counterexample: in `envCrashFirst` the decode engine throws during
attempt 1 while strategy 2 would decode the valid text `"good"`; the
claim says the error is caught for that attempt and the pipeline advances
to the next strategy, but the code's single top-level catch aborts: the
outcome is a processing error, the trace stops at attempt 1, and strategy
2 — though it would succeed — is never evaluated. -/
theorem c4_counterexample :
    runPipeline envCrashFirst = (Outcome.processingError "engine crash", [Attempt.standard0])
    ∧ runStrategy envCrashFirst Attempt.enhanced0 = Except.ok (some "good") := by
  exact ⟨rfl, rfl⟩

/-- C4 (amended): a capability error during any single preprocessing+decode
attempt is NOT caught per attempt: it propagates to the single top-level
catch, which aborts the whole pipeline with a processing error (the same
exit path as an error reading/opening the source image); the pipeline
does not advance to the next strategy. -/
theorem c4_error_aborts_pipeline :
    ∀ (β : Type) (env : Env β) (pre post : List Attempt) (a : Attempt) (e : String),
      attemptOrder = pre ++ a :: post →
      (∀ b ∈ pre, runStrategy env b = Except.ok none) →
      runStrategy env a = Except.error e →
      runPipeline env = (Outcome.processingError e, pre ++ [a]) := by
  intro β env pre post a e hord hpre ha
  unfold runPipeline
  rw [hord, runPipelineAux_append_none env pre _ hpre]
  simp [runPipelineAux, ha]

/-- Witness for the amended C4: the engine crash during attempt 1 of
`envCrashFirst` aborts the pipeline immediately. -/
theorem c4_witness :
    runPipeline envCrashFirst = (Outcome.processingError "engine crash", [Attempt.standard0]) :=
  c4_error_aborts_pipeline Recipe envCrashFirst []
    [Attempt.enhanced0, Attempt.rotated 90, Attempt.rotated 180, Attempt.rotated 270,
     Attempt.original]
    Attempt.standard0 "engine crash" rfl
    (by intro b hb; exact absurd hb (List.not_mem_nil b))
    rfl

/-- C8: when every attempt completes without a valid decode, the pipeline
signals decode failure — a normal outcome with exit code 2, distinct from
the fatal processing-error outcome — and the trace shows all attempts ran,
the unprocessed original bytes being the last attempt before failure is
reported. -/
theorem c8_decode_failure_after_fallback :
    ∀ (β : Type) (env : Env β),
      (∀ a ∈ attemptOrder, runStrategy env a = Except.ok none) →
      runPipeline env = (Outcome.decodeFailed, attemptOrder)
      ∧ attemptOrder.getLast? = some Attempt.original
      ∧ exitCode Outcome.decodeFailed = 2
      ∧ ∀ e, Outcome.decodeFailed ≠ Outcome.processingError e := by
  intro β env h
  refine ⟨?_, rfl, rfl, ?_⟩
  · unfold runPipeline
    exact runPipelineAux_all_none env attemptOrder h
  · intro e he
    exact Outcome.noConfusion he

/-- Witness for C8: in `envAllNone` all six attempts complete with no
result and the pipeline reports decode failure with the full trace. -/
theorem c8_witness :
    runPipeline envAllNone = (Outcome.decodeFailed, attemptOrder) :=
  (c8_decode_failure_after_fallback Unit envAllNone
    (by intro a ha; fin_cases ha <;> rfl)).1

/-- C2: parsing the reference payload
`010034928158905817131028100U42275AA` yields the GTIN
`00349281589058`, the NDC `49281-5890-58`, the raw expiration date
`131028` formatted as October 28, 2013, and the lot number `0U42275AA`. -/
theorem c2_reference_payload :
    parseGS1DataMatrix "010034928158905817131028100U42275AA" =
      { raw := "010034928158905817131028100U42275AA",
        gtin := some "00349281589058",
        ndc := some "49281-5890-58",
        expirationDateRaw := some "131028",
        expirationDate := some "October 28, 2013",
        lotNumber := some "0U42275AA",
        serialNumber := none } := by
  decide

/-- C3: `convertGTINtoNDC` fails with the invalid-format error on every
input whose length is not 14; on every 14-character input it returns the
characters 4-8, 9-12 and 13-14 of the GTIN (1-indexed) joined with
hyphens — that is, it drops the first 3 characters and regroups the
remaining 11 as 5-4-2. -/
theorem c3_gtin_to_ndc :
    ∀ s : String,
      (s.length ≠ 14 →
        convertGTINtoNDC s = Except.error "Invalid GTIN format. Expected 14 digits.")
      ∧ (s.length = 14 →
        convertGTINtoNDC s =
          Except.ok (jsSubstring s 3 8 ++ "-" ++ jsSubstring s 8 12 ++ "-" ++
            jsSubstring s 12 14)) := by
  intro s
  constructor
  · intro h
    unfold convertGTINtoNDC
    rw [if_pos h]
  · intro h
    unfold convertGTINtoNDC
    rw [if_neg (by simp [h])]
    show Except.ok (jsSubstring (jsSubstringFrom s 3) 0 5 ++ "-" ++
        jsSubstring (jsSubstringFrom s 3) 5 9 ++ "-" ++ jsSubstring (jsSubstringFrom s 3) 9 11) = _
    rw [jsSubstringFrom_sub s 3 0 5 (by omega), jsSubstringFrom_sub s 3 5 9 (by omega),
      jsSubstringFrom_sub s 3 9 11 (by omega)]

/-- Witness for C3: a 4-character input is rejected and the reference
GTIN is regrouped into its NDC slices. -/
theorem c3_witness :
    convertGTINtoNDC "0034" = Except.error "Invalid GTIN format. Expected 14 digits."
    ∧ convertGTINtoNDC "00349281589058" =
        Except.ok (jsSubstring "00349281589058" 3 8 ++ "-" ++
          jsSubstring "00349281589058" 8 12 ++ "-" ++ jsSubstring "00349281589058" 12 14) :=
  ⟨(c3_gtin_to_ndc "0034").1 (by decide), (c3_gtin_to_ndc "00349281589058").2 (by decide)⟩

/-- C6: the century-resolution step of `formatExpirationDate` maps a
two-digit year 00-30 to 2000-2030 and 31-99 to 1931-1999, and at the
cutoff boundary `formatExpirationDate` resolves `300101` to January 1,
2030 and `310101` to January 1, 1931. -/
theorem c6_century_resolution :
    (∀ y : Int, 0 ≤ y → y ≤ 30 → resolveFullYear y = 2000 + y)
    ∧ (∀ y : Int, 31 ≤ y → y ≤ 99 → resolveFullYear y = 1900 + y)
    ∧ formatExpirationDate "300101" = "January 1, 2030"
    ∧ formatExpirationDate "310101" = "January 1, 1931" := by
  refine ⟨fun y h0 h30 => ?_, fun y h31 h99 => ?_, by decide, by decide⟩
  · unfold resolveFullYear
    rw [if_pos h30]
  · unfold resolveFullYear
    rw [if_neg (by omega)]

/-- Witness for C6: both cutoff years evaluated through the theorem. -/
theorem c6_witness :
    resolveFullYear 30 = 2000 + 30 ∧ resolveFullYear 31 = 1900 + 31 :=
  ⟨c6_century_resolution.1 30 (by decide) (by decide),
   c6_century_resolution.2.1 31 (by decide) (by decide)⟩

/-- C10: no input payload ever produces a record with a populated
`serialNumber`: the parser recognizes only the AIs 01, 17 and 10, and
AI 21 is never parsed into the record. -/
theorem c10_serial_never_populated :
    ∀ data : String, (parseGS1DataMatrix data).serialNumber = none := by
  intro data
  unfold parseGS1DataMatrix parseGS1Body
  by_cases h01 : jsSubstring data 0 2 = "01"
  · rw [if_pos h01]
    cases hc : convertGTINtoNDC (jsSubstring data 2 16) with
    | error e => simp [hc]
    | ok v => simp [hc, parseGS1After01_serial]
  · rw [if_neg h01]
    simp [parseGS1After01_serial]

/-- C5 counterexample: on the payload `0112345` the parser records
`gtin = "12345"` — a present gtin of 5 characters, a partial value kept
even though fewer than 14 characters remained after the AI — refuting
both halves of the claim. -/
theorem c5_counterexample :
    (parseGS1DataMatrix "0112345").gtin = some "12345"
    ∧ ("12345" : String).length ≠ 14 := by
  decide

/-- C5 (amended): whenever the gtin field is present it is the substring
of the payload from position 2 to 16 — exactly 14 characters when the
payload has at least 16 characters; when fewer characters remain, the
truncated remainder (shorter than 14) is still recorded as `gtin`, and
the resulting conversion error aborts parsing with `ndc`,
`expirationDateRaw` and `lotNumber` all left unset. -/
theorem c5_gtin_shape :
    ∀ (data g : String),
      (parseGS1DataMatrix data).gtin = some g →
      g = jsSubstring data 2 16
      ∧ g.length ≤ 14
      ∧ (16 ≤ data.length → g.length = 14)
      ∧ (data.length < 16 →
          g.length < 14
          ∧ (parseGS1DataMatrix data).ndc = none
          ∧ (parseGS1DataMatrix data).expirationDateRaw = none
          ∧ (parseGS1DataMatrix data).lotNumber = none) := by
  intro data g hg
  have hlen : (jsSubstring data 2 16).length = min 16 data.length - 2 :=
    jsSubstring_length data 2 16 (by omega)
  by_cases h01 : jsSubstring data 0 2 = "01"
  · cases hc : convertGTINtoNDC (jsSubstring data 2 16) with
    | error e =>
        have heq := parseGS1_conv_error data e h01 hc
        rw [heq] at hg
        have hgv : jsSubstring data 2 16 = g := by simpa using hg
        subst hgv
        have hne : (jsSubstring data 2 16).length ≠ 14 :=
          convertGTINtoNDC_error_iff _ e hc
        refine ⟨rfl, by omega, by omega,
          fun _ => ⟨by omega, by simp [heq], by simp [heq], by simp [heq]⟩⟩
    | ok v =>
        have heq := parseGS1_conv_ok data v h01 hc
        rw [heq, parseGS1After01_gtin] at hg
        have hgv : jsSubstring data 2 16 = g := by simpa using hg
        subst hgv
        have h14 : (jsSubstring data 2 16).length = 14 :=
          convertGTINtoNDC_ok_iff _ v hc
        exact ⟨rfl, by omega, fun _ => by omega, fun hlt => absurd hlt (by omega)⟩
  · rw [parseGS1_no01 data h01, parseGS1After01_gtin] at hg
    exact absurd hg (by simp)

/-- Witness for C5 (amended): instantiated on the truncating payload
`0112345`, whose recorded gtin is the 5-character remainder. -/
theorem c5_witness :
    ("12345" : String) = jsSubstring "0112345" 2 16
    ∧ ("12345" : String).length ≤ 14
    ∧ (16 ≤ ("0112345" : String).length → ("12345" : String).length = 14)
    ∧ (("0112345" : String).length < 16 →
        ("12345" : String).length < 14
        ∧ (parseGS1DataMatrix "0112345").ndc = none
        ∧ (parseGS1DataMatrix "0112345").expirationDateRaw = none
        ∧ (parseGS1DataMatrix "0112345").lotNumber = none) :=
  c5_gtin_shape "0112345" "12345" (by decide)

/-- C7: whenever the parser's cursor reaches the two-character AI `10` —
the check performed after the AI 17 stage, at any cursor position and
with any record accumulated so far — the entire remaining substring after
the AI becomes `lotNumber` with no truncation and nothing else of the
record changes (no further AIs are parsed); in particular a payload that
is `10` followed by arbitrary characters maps them all to `lotNumber`. -/
theorem c7_lot_consumes_remainder :
    (∀ (pre tail : List Char) (r : ParsedRecord),
        parseGS1After17 (String.mk (pre ++ '1' :: '0' :: tail)) pre.length r =
          { r with lotNumber := some (String.mk tail) })
    ∧ ∀ tail : List Char,
        (parseGS1DataMatrix (String.mk ('1' :: '0' :: tail))).lotNumber =
          some (String.mk tail) := by
  have hmain : ∀ (pre tail : List Char) (r : ParsedRecord),
      parseGS1After17 (String.mk (pre ++ '1' :: '0' :: tail)) pre.length r =
        { r with lotNumber := some (String.mk tail) } := by
    intro pre tail r
    have hcond : jsSubstring (String.mk (pre ++ '1' :: '0' :: tail)) pre.length
        (pre.length + 2) = "10" := by
      apply String.ext
      rw [jsSubstring_data _ _ _ (by omega)]
      show ((pre ++ '1' :: '0' :: tail).drop pre.length).take (pre.length + 2 - pre.length) =
        ['1', '0']
      rw [Nat.add_sub_cancel_left, List.drop_left]
      rfl
    have hdrop : jsSubstringFrom (String.mk (pre ++ '1' :: '0' :: tail)) (pre.length + 2) =
        String.mk tail := by
      show String.mk ((pre ++ '1' :: '0' :: tail).drop (pre.length + 2)) = String.mk tail
      rw [List.drop_append]
      rfl
    unfold parseGS1After17
    rw [if_pos hcond, hdrop]
  refine ⟨hmain, ?_⟩
  intro tail
  have h10 : jsSubstring (String.mk ('1' :: '0' :: tail)) 0 2 = "10" := by
    apply String.ext
    rw [jsSubstring_data _ _ _ (by omega)]
    rfl
  have h01 : jsSubstring (String.mk ('1' :: '0' :: tail)) 0 2 ≠ "01" := by
    rw [h10]
    decide
  have h17 : jsSubstring (String.mk ('1' :: '0' :: tail)) 0 (0 + 2) ≠ "17" := by
    show jsSubstring (String.mk ('1' :: '0' :: tail)) 0 2 ≠ "17"
    rw [h10]
    decide
  rw [parseGS1_no01 _ h01]
  unfold parseGS1After01
  rw [if_neg h17]
  have h := hmain [] tail { raw := String.mk ('1' :: '0' :: tail) }
  simpa using congrArg ParsedRecord.lotNumber h

/-- C9: `parseGS1DataMatrix` is total and never surfaces an error: it is
exactly the top-level catch around `parseGS1Body`, returning a record in
both the ok and the error case; a payload missing a recognized AI at the
current cursor position leaves the corresponding fields untouched rather
than raising; and when the body does throw, the best-effort partial
record accumulated before the failure is returned. -/
theorem c9_total_best_effort :
    ∀ data : String,
      (parseGS1DataMatrix data =
        match parseGS1Body data with
        | Except.ok r => r
        | Except.error (_, r) => r)
      ∧ (jsSubstring data 0 2 ≠ "01" → (parseGS1DataMatrix data).gtin = none)
      ∧ (∀ (pos : Nat) (r : ParsedRecord), jsSubstring data pos (pos + 2) ≠ "17" →
          (parseGS1After01 data pos r).expirationDateRaw = r.expirationDateRaw
          ∧ (parseGS1After01 data pos r).expirationDate = r.expirationDate)
      ∧ (∀ (pos : Nat) (r : ParsedRecord), jsSubstring data pos (pos + 2) ≠ "10" →
          parseGS1After17 data pos r = r)
      ∧ ∀ (e : String) (r : ParsedRecord),
          parseGS1Body data = Except.error (e, r) → parseGS1DataMatrix data = r := by
  intro data
  refine ⟨rfl, ?_, ?_, ?_, ?_⟩
  · intro h01
    rw [parseGS1_no01 data h01, parseGS1After01_gtin]
  · intro pos r h17
    unfold parseGS1After01
    rw [if_neg h17]
    exact ⟨parseGS1After17_expRaw data pos r, parseGS1After17_exp data pos r⟩
  · intro pos r h10
    unfold parseGS1After17
    rw [if_neg h10]
  · intro e r h
    unfold parseGS1DataMatrix
    rw [h]

/-- Witness for C9: on the AI-free payload `XYZ` no field is populated
and the record is still returned with `gtin` unset. -/
theorem c9_witness : (parseGS1DataMatrix "XYZ").gtin = none :=
  (c9_total_best_effort "XYZ").2.1 (by decide)

end DMDecoder
